import Mathlib

/-!
Verification of the GPT-2 BPE asset exporter
(`scripts/coreml/export_gpt2_bpe_assets.py`).

The script reads a `tokenizer.json` document, validates and normalizes its
vocabulary and merge rules, and writes two output files (`vocab.json` and
`merges.txt`).  We embed the JSON data model and the three functions
`normalize_merges`, `merge_added_tokens` and `main` as pure Lean
functions, and prove the specified properties about them.
-/

/-- JSON values, as produced by Python's `json.load`.  Objects keep key
order (Python dicts preserve insertion order); `json.load` never yields
duplicate keys. -/
inductive JValue where
  | null
  | bool (b : Bool)
  | int (n : Int)
  | str (s : String)
  | arr (xs : List JValue)
  | obj (kvs : List (String × JValue))

/-- Python `dict.get` on a JSON object: first binding of the key, if any. -/
def dictGet : List (String × JValue) → String → Option JValue
  | [], _ => none
  | (k, v) :: rest, key => if k = key then some v else dictGet rest key

/-- Lookup in the merged vocabulary (`merged.get(token)` in the source). -/
def lookupId : List (String × Int) → String → Option Int
  | [], _ => none
  | (k, v) :: rest, key => if k = key then some v else lookupId rest key

/-- Python dict assignment `merged[token] = token_id`: replace the value in
place if the key is present, otherwise append at the end. -/
def dictSetId (d : List (String × Int)) (key : String) (v : Int) : List (String × Int) :=
  match d with
  | [] => [(key, v)]
  | (k, v') :: rest => if k = key then (key, v) :: rest else (k, v') :: dictSetId rest key v

/-- Errors raised by `merge_added_tokens` (all are `ValueError` in the
source; the constructors record exactly the data interpolated into each
message). -/
inductive VocabError where
  | unsupportedVocabEntry (token : String) (value : JValue)
  | addedTokensNotList
  | unsupportedAddedEntry (idx : Nat) (entry : JValue)
  | missingFields (idx : Nat)
  | conflictingIds (token : String) (existing : Int) (added : Int)

/-- First loop of `merge_added_tokens`: copy the base vocabulary into a
fresh dict, rejecting any entry whose value is not an integer (object keys
are strings by construction, so the `isinstance(token, str)` half of the
source's check always passes). -/
def copyVocab (acc : List (String × Int)) :
    List (String × JValue) → Except VocabError (List (String × Int))
  | [] => .ok acc
  | (token, v) :: rest =>
    match v with
    | .int n => copyVocab (dictSetId acc token n) rest
    | _ => .error (.unsupportedVocabEntry token v)

/-- Second loop of `merge_added_tokens`: fold the added-token entries into
the working vocabulary `merged`, in order, failing on a malformed entry or
on a conflicting id. -/
def addedTokensLoop (idx : Nat) (entries : List JValue)
    (merged : List (String × Int)) : Except VocabError (List (String × Int)) :=
  match entries with
  | [] => .ok merged
  | e :: rest =>
    match e with
    | .obj kvs =>
      match dictGet kvs "content", dictGet kvs "id" with
      | some (.str token), some (.int tokenId) =>
        match lookupId merged token with
        | some existingId =>
          if existingId ≠ tokenId then
            .error (.conflictingIds token existingId tokenId)
          else
            addedTokensLoop (idx + 1) rest (dictSetId merged token tokenId)
        | none => addedTokensLoop (idx + 1) rest (dictSetId merged token tokenId)
      | _, _ => .error (.missingFields idx)
    | _ => .error (.unsupportedAddedEntry idx e)

/-- Embedding of `merge_added_tokens(vocab, raw_added_tokens)`.  In Python
an absent `added_tokens` key and a JSON `null` both arrive as `None`; both
are modelled by `JValue.null` here. -/
def merge_added_tokens (vocab : List (String × JValue)) (rawAddedTokens : JValue) :
    Except VocabError (List (String × Int)) :=
  match copyVocab [] vocab with
  | .error e => .error e
  | .ok merged =>
    match rawAddedTokens with
    | .null => .ok merged
    | .arr entries => addedTokensLoop 0 entries merged
    | _ => .error .addedTokensNotList

/-- Python's `str.strip()` with no argument: drop leading and trailing
whitespace characters (restricted here to the ASCII whitespace of
`Char.isWhitespace`; Python additionally strips some rarer Unicode
whitespace, which no claim exercises). -/
def pyStrip (s : String) : String :=
  String.mk (((s.data.dropWhile Char.isWhitespace).reverse.dropWhile Char.isWhitespace).reverse)

/-- Loop of `normalize_merges`, carrying the running index `idx`.  A string
entry is stripped (`entry.strip()`) and the stripped string kept when
non-empty; a two-element array of strings is rendered `"left right"`;
anything else raises `ValueError`, modelled as an error carrying the
offending index and entry. -/
def normalizeMergesFrom (idx : Nat) : List JValue → Except (Nat × JValue) (List String)
  | [] => .ok []
  | entry :: rest =>
    match entry with
    | .str s =>
      let line := pyStrip s
      if line.isEmpty then normalizeMergesFrom (idx + 1) rest
      else (normalizeMergesFrom (idx + 1) rest).map (fun ls => line :: ls)
    | .arr [.str l, .str r] =>
      (normalizeMergesFrom (idx + 1) rest).map (fun ls => (l ++ " " ++ r) :: ls)
    | _ => .error (idx, entry)

/-- Embedding of `normalize_merges(raw_merges)`. -/
def normalize_merges (rawMerges : List JValue) : Except (Nat × JValue) (List String) :=
  normalizeMergesFrom 0 rawMerges

/-- Lower-case hex digit, for the `\u00XX` escapes of `json.dump`. -/
def hexDigit (n : Nat) : Char :=
  if n < 10 then Char.ofNat (48 + n) else Char.ofNat (87 + n)

/-- Escaping of one character inside a JSON string literal, as done by
Python's `json.dump` with `ensure_ascii=False`: only the quote, the
backslash and control characters below `0x20` are escaped. -/
def jsonEscapeChar (c : Char) : String :=
  if c = '"' then "\\\""
  else if c = '\\' then "\\\\"
  else if c = '\n' then "\\n"
  else if c = '\t' then "\\t"
  else if c = '\r' then "\\r"
  else if c = Char.ofNat 8 then "\\b"
  else if c = Char.ofNat 12 then "\\f"
  else if c.toNat < 32 then
    String.mk ['\\', 'u', '0', '0', hexDigit (c.toNat / 16), hexDigit (c.toNat % 16)]
  else String.singleton c

/-- JSON rendering of a string literal. -/
def jsonString (s : String) : String :=
  "\"" ++ String.join (s.data.map jsonEscapeChar) ++ "\""

/-- Content of the vocabulary output file:
`json.dump(vocab, f, ensure_ascii=False, separators=(",", ":"))` applied to
the merged vocabulary, whose key order is insertion order. -/
def jsonDumpVocab (merged : List (String × Int)) : String :=
  "\x7b" ++
    String.intercalate ","
      (merged.map (fun kv => jsonString kv.1 ++ ":" ++ toString kv.2)) ++
    "\x7d"

/-- Content of the merges output file: the fixed version header line, then
each normalized merge line followed by a newline. -/
def mergesFileContent (merges : List String) : String :=
  "#version: 0.2\n" ++ String.join (merges.map (fun line => line ++ "\n"))

/-- Pure core of `main()`, operating on the parsed `tokenizer.json`
document.  On success it returns the exact contents of the two output
files; on failure, the process exit code.  Returns in the source map as
follows: `3` missing/invalid `model` object, `4` unsupported model type,
`5` missing/invalid vocabulary, `8` a `ValueError` from
`merge_added_tokens`, `6` missing/invalid merges list, `7` empty usable
merge set.  An exception that `main` does not catch (the `ValueError`
raised by `normalize_merges`, or the `AttributeError` from calling `.get`
on a non-object root) terminates the interpreter with exit code `1`. -/
def mainExport (root : JValue) : Except Nat (String × String) :=
  match root with
  | .obj rootKvs =>
    match dictGet rootKvs "model" with
    | some (.obj model) =>
      (match dictGet model "type" with
      | some (.str t) =>
        if t = "BPE" then
          match dictGet model "vocab" with
          | some (.obj vocab) =>
            if vocab.isEmpty then .error 5
            else
              match merge_added_tokens vocab ((dictGet rootKvs "added_tokens").getD .null) with
              | .error _ => .error 8
              | .ok merged =>
                match dictGet model "merges" with
                | some (.arr mergesRaw) =>
                  if mergesRaw.isEmpty then .error 6
                  else
                    match normalize_merges mergesRaw with
                    | .error _ => .error 1
                    | .ok merges =>
                      if merges.isEmpty then .error 7
                      else .ok (jsonDumpVocab merged, mergesFileContent merges)
                | _ => .error 6
          | _ => .error 5
        else .error 4
      | _ => .error 4)
    | _ => .error 3
  | _ => .error 1

/-- Filesystem state: output path to file content. -/
def FileSystem : Type := String → Option String

/-- Writing (or overwriting) a file. -/
def fsWrite (fs : FileSystem) (path content : String) : FileSystem :=
  fun p => if p = path then some content else fs p

/-- Embedding of the whole of `main()` including its filesystem effects on
the two output paths.  `input` is the result of locating and parsing the
source document: `none` when `tokenizer_path.is_file()` is false (exit
code `2`), otherwise the parsed document.  All validation returns happen
before either output file is opened, so a failing run leaves the
filesystem untouched. -/
def mainFS (input : Option JValue) (outVocab outMerges : String)
    (fs : FileSystem) : Nat × FileSystem :=
  match input with
  | none => (2, fs)
  | some root =>
    match mainExport root with
    | .error code => (code, fs)
    | .ok contents => (0, fsWrite (fsWrite fs outVocab contents.1) outMerges contents.2)

/-- The seven failure categories named in the spec's exit-code contract. -/
inductive FailureCategory where
  | sourceNotFound
  | missingModelSection
  | unsupportedModelType
  | missingVocabulary
  | missingMerges
  | emptyMergeSet
  | vocabMergeFailure
deriving DecidableEq

/-- Exit code of each failure category, read off the `return` statements of
`main()`. -/
def exitCode : FailureCategory → Nat
  | .sourceNotFound => 2
  | .missingModelSection => 3
  | .unsupportedModelType => 4
  | .missingVocabulary => 5
  | .missingMerges => 6
  | .emptyMergeSet => 7
  | .vocabMergeFailure => 8

/-- All seven failure categories. -/
def allFailureCategories : List FailureCategory :=
  [.sourceNotFound, .missingModelSection, .unsupportedModelType,
   .missingVocabulary, .missingMerges, .emptyMergeSet, .vocabMergeFailure]

/-- The minimal valid document of the spec:
`{"model": {"type": "BPE", "vocab": {"a": 0, "b": 1}, "merges": ["a b"]}}`. -/
def minimalDoc : JValue :=
  .obj [("model", .obj [("type", .str "BPE"),
                        ("vocab", .obj [("a", .int 0), ("b", .int 1)]),
                        ("merges", .arr [.str "a b"])])]

/-- The minimal document with `model.type` changed to `"WordPiece"`. -/
def wordPieceDoc : JValue :=
  .obj [("model", .obj [("type", .str "WordPiece"),
                        ("vocab", .obj [("a", .int 0), ("b", .int 1)]),
                        ("merges", .arr [.str "a b"])])]

/-- A document with no `model` object. -/
def docMissingModel : JValue := .obj []

/-- A BPE document with no vocabulary. -/
def docMissingVocab : JValue :=
  .obj [("model", .obj [("type", .str "BPE")])]

/-- A BPE document with a vocabulary but no merges list. -/
def docMissingMerges : JValue :=
  .obj [("model", .obj [("type", .str "BPE"),
                        ("vocab", .obj [("a", .int 0)])])]

/-- A BPE document whose only merge entry strips to the empty string, so
the normalized merge set is empty. -/
def docBlankMerges : JValue :=
  .obj [("model", .obj [("type", .str "BPE"),
                        ("vocab", .obj [("a", .int 0)]),
                        ("merges", .arr [.str "  "])])]

/-- The minimal document plus `added_tokens = [{"content": "a", "id": 5}]`,
conflicting with `vocab["a"] = 0`. -/
def docConflictingAdded : JValue :=
  .obj [("model", .obj [("type", .str "BPE"),
                        ("vocab", .obj [("a", .int 0), ("b", .int 1)]),
                        ("merges", .arr [.str "a b"])]),
        ("added_tokens", .arr [.obj [("content", .str "a"), ("id", .int 5)]])]

/-- Well-formedness of one raw merge entry: the shapes `normalize_merges`
accepts without raising. -/
def goodMergeEntry : JValue → Bool
  | .str _ => true
  | .arr [.str _, .str _] => true
  | _ => false

/-- What `normalize_merges` contributes for one well-formed entry: the
stripped string when non-empty, nothing for a blank string, and
`"left right"` for a pair. -/
def renderMergeEntry : JValue → Option String
  | .str s => if (pyStrip s).isEmpty then none else some (pyStrip s)
  | .arr [.str l, .str r] => some (l ++ " " ++ r)
  | _ => none

theorem goodMergeEntry_shape (e : JValue) (he : goodMergeEntry e = true) :
    (∃ s, e = .str s) ∨ ∃ l r, e = .arr [.str l, .str r] := by
  unfold goodMergeEntry at he
  split at he
  · exact Or.inl ⟨_, rfl⟩
  · exact Or.inr ⟨_, _, rfl⟩
  · exact absurd he (by simp)

theorem normalizeMergesFrom_good (es : List JValue)
    (h : ∀ e ∈ es, goodMergeEntry e = true) (idx : Nat) :
    normalizeMergesFrom idx es = .ok (es.filterMap renderMergeEntry) := by
  induction es generalizing idx with
  | nil => rfl
  | cons e rest ih =>
    have hrest : ∀ x ∈ rest, goodMergeEntry x = true := fun x hx => h x (List.mem_cons_of_mem _ hx)
    rcases goodMergeEntry_shape e (h e (List.mem_cons_self _ _)) with ⟨s, rfl⟩ | ⟨l, r, rfl⟩
    · by_cases hb : (pyStrip s).isEmpty
      · simp [normalizeMergesFrom, hb, renderMergeEntry, ih hrest]
      · simp [normalizeMergesFrom, hb, renderMergeEntry, ih hrest, Except.map]
    · simp [normalizeMergesFrom, renderMergeEntry, ih hrest, Except.map]

theorem normalizeMergesFrom_bad_at (good : List JValue) (e : JValue) (rest : List JValue)
    (hg : ∀ x ∈ good, goodMergeEntry x = true) (hb : goodMergeEntry e = false) (idx : Nat) :
    normalizeMergesFrom idx (good ++ e :: rest) = .error (idx + good.length, e) := by
  induction good generalizing idx with
  | nil =>
    simp only [List.nil_append, List.length_nil, Nat.add_zero]
    unfold normalizeMergesFrom
    split
    · simp [goodMergeEntry] at hb
    · simp [goodMergeEntry] at hb
    · rfl
  | cons g good' ih =>
    have hrest : ∀ x ∈ good', goodMergeEntry x = true := fun x hx => hg x (List.mem_cons_of_mem _ hx)
    rcases goodMergeEntry_shape g (hg g (List.mem_cons_self _ _)) with ⟨s, rfl⟩ | ⟨l, r, rfl⟩
    · by_cases hbl : (pyStrip s).isEmpty
      · simp only [List.cons_append, List.length_cons]
        rw [show normalizeMergesFrom idx (JValue.str s :: (good' ++ e :: rest))
              = normalizeMergesFrom (idx + 1) (good' ++ e :: rest) by
            simp [normalizeMergesFrom, hbl]]
        rw [ih hrest]
        congr 2
        omega
      · simp only [List.cons_append, List.length_cons]
        rw [show normalizeMergesFrom idx (JValue.str s :: (good' ++ e :: rest))
              = (normalizeMergesFrom (idx + 1) (good' ++ e :: rest)).map
                  (fun ls => pyStrip s :: ls) by
            simp [normalizeMergesFrom, hbl]]
        rw [ih hrest]
        simp [Except.map]
        omega
    · simp only [List.cons_append, List.length_cons]
      rw [show normalizeMergesFrom idx (JValue.arr [JValue.str l, JValue.str r]
              :: (good' ++ e :: rest))
            = (normalizeMergesFrom (idx + 1) (good' ++ e :: rest)).map
                (fun ls => (l ++ " " ++ r) :: ls) by
          simp [normalizeMergesFrom]]
      rw [ih hrest]
      simp [Except.map]
      omega

theorem lookupId_append (a b : List (String × Int)) (key : String) :
    lookupId (a ++ b) key =
      match lookupId a key with
      | some v => some v
      | none => lookupId b key := by
  induction a with
  | nil => rfl
  | cons p rest ih =>
    by_cases h : p.1 = key
    · simp [lookupId, h]
    · simp [lookupId, h, ih]

theorem dictSetId_of_lookup_none (d : List (String × Int)) (key : String) (v : Int)
    (h : lookupId d key = none) : dictSetId d key v = d ++ [(key, v)] := by
  induction d with
  | nil => rfl
  | cons p rest ih =>
    by_cases hk : p.1 = key
    · simp [lookupId, hk] at h
    · simp [lookupId, hk] at h
      simp [dictSetId, hk, ih h]

theorem copyVocab_int (ids : List (String × Int)) (acc : List (String × Int))
    (hdisj : ∀ p ∈ ids, lookupId acc p.1 = none)
    (hnodup : (ids.map Prod.fst).Nodup) :
    copyVocab acc (ids.map (fun kv => (kv.1, JValue.int kv.2))) = .ok (acc ++ ids) := by
  induction ids generalizing acc with
  | nil => simp [copyVocab]
  | cons p rest ih =>
    have hp : lookupId acc p.1 = none := hdisj p (List.mem_cons_self _ _)
    have hnotin : p.1 ∉ rest.map Prod.fst := by
      have := (List.nodup_cons.mp hnodup).1
      simpa using this
    have hdisj' : ∀ q ∈ rest, lookupId (acc ++ [(p.1, p.2)]) q.1 = none := by
      intro q hq
      rw [lookupId_append]
      rw [hdisj q (List.mem_cons_of_mem _ hq)]
      have hne : p.1 ≠ q.1 := by
        intro hcontra
        exact hnotin (hcontra ▸ List.mem_map_of_mem Prod.fst hq)
      simp [lookupId, hne]
    have hnodup' : (rest.map Prod.fst).Nodup := (List.nodup_cons.mp hnodup).2
    simp only [List.map_cons, copyVocab]
    rw [dictSetId_of_lookup_none _ _ _ hp]
    rw [ih (acc ++ [(p.1, p.2)]) hdisj' hnodup']
    simp

/-- Claim C1: for every working vocabulary reached by the added-token loop
of `merge_added_tokens`, an entry whose `content` is already present with
an id different from the entry's own id makes the operation fail with a
conflicting-id error carrying the token text, the existing id and the
conflicting id, and no merged vocabulary is returned (no last-write-wins
override).  In particular this holds for `merge_added_tokens` itself when
the conflicting entry is the first added token. -/
theorem merge_added_tokens_conflicting_id (merged : List (String × Int)) (idx : Nat)
    (kvs : List (String × JValue)) (rest : List JValue)
    (token : String) (existingId tokenId : Int)
    (hc : dictGet kvs "content" = some (.str token))
    (hi : dictGet kvs "id" = some (.int tokenId))
    (he : lookupId merged token = some existingId)
    (hne : existingId ≠ tokenId) :
    addedTokensLoop idx (JValue.obj kvs :: rest) merged
        = .error (.conflictingIds token existingId tokenId)
    ∧ ∀ vocab, copyVocab [] vocab = .ok merged →
        merge_added_tokens vocab (.arr (JValue.obj kvs :: rest))
          = .error (.conflictingIds token existingId tokenId) := by
  have hloop : ∀ i, addedTokensLoop i (JValue.obj kvs :: rest) merged
      = .error (.conflictingIds token existingId tokenId) := by
    intro i
    simp [addedTokensLoop, hc, hi, he, hne]
  refine ⟨hloop idx, fun vocab hv => ?_⟩
  simp [merge_added_tokens, hv, hloop 0]

/-- Concrete instance of `merge_added_tokens_conflicting_id`: vocabulary
`{"a": 0}` against added token `{"content": "a", "id": 5}`. -/
theorem merge_added_tokens_conflicting_id_witness :
    addedTokensLoop 0 [JValue.obj [("content", .str "a"), ("id", .int 5)]] [("a", 0)]
        = .error (.conflictingIds "a" 0 5)
    ∧ merge_added_tokens [("a", .int 0)] (.arr [JValue.obj [("content", .str "a"), ("id", .int 5)]])
        = .error (.conflictingIds "a" 0 5) := by
  have h := merge_added_tokens_conflicting_id [("a", 0)] 0
    [("content", .str "a"), ("id", .int 5)] [] "a" 0 5 rfl rfl rfl (by decide)
  exact ⟨h.1, h.2 [("a", .int 0)] rfl⟩

/-- Claim C2: whenever any validation step of the export operation fails
(non-zero exit code), neither output file is created or modified, and the
two output files are written only on success; in particular the minimal
valid document with `model.type` changed to `"WordPiece"` fails with the
unsupported-model-type exit code `4` leaving the filesystem untouched. -/
theorem mainFS_no_partial_output :
    (∀ input outVocab outMerges fs, (mainFS input outVocab outMerges fs).1 ≠ 0 →
        (mainFS input outVocab outMerges fs).2 = fs)
    ∧ mainExport wordPieceDoc = .error 4
    ∧ (∀ outVocab outMerges fs, mainFS (some wordPieceDoc) outVocab outMerges fs = (4, fs)) := by
  refine ⟨?_, rfl, fun _ _ _ => rfl⟩
  intro input outVocab outMerges fs h
  match input with
  | none => rfl
  | some root =>
    match hm : mainExport root with
    | .error code => simp [mainFS, hm]
    | .ok contents => exact absurd (by simp [mainFS, hm]) h

/-- Concrete instance of `mainFS_no_partial_output`: the failing WordPiece
run leaves an empty filesystem empty. -/
theorem mainFS_no_partial_output_witness :
    (mainFS (some wordPieceDoc) "vocab.json" "merges.txt" (fun _ => none)).2 = (fun _ => none) :=
  mainFS_no_partial_output.1 (some wordPieceDoc) "vocab.json" "merges.txt" (fun _ => none)
    (by decide)

/-- Claim C3: the export operation exits with `0` on success, and the seven
failure categories (source-not-found, malformed/missing model section,
unsupported model type, missing/invalid vocabulary, missing/invalid
merges, empty usable merge set, vocabulary-merge validation failure) each
terminate with their own distinct non-zero exit code, each code mapping to
exactly one category; one representative run per category exhibits the
code. -/
theorem mainExport_exit_codes :
    (∀ c : FailureCategory, c ∈ allFailureCategories)
    ∧ (allFailureCategories.map exitCode).Nodup
    ∧ (∀ c : FailureCategory, 0 < exitCode c)
    ∧ (∀ outVocab outMerges fs, (mainFS none outVocab outMerges fs).1
        = exitCode .sourceNotFound)
    ∧ mainExport docMissingModel = .error (exitCode .missingModelSection)
    ∧ mainExport wordPieceDoc = .error (exitCode .unsupportedModelType)
    ∧ mainExport docMissingVocab = .error (exitCode .missingVocabulary)
    ∧ mainExport docMissingMerges = .error (exitCode .missingMerges)
    ∧ mainExport docBlankMerges = .error (exitCode .emptyMergeSet)
    ∧ mainExport docConflictingAdded = .error (exitCode .vocabMergeFailure)
    ∧ (∀ outVocab outMerges fs, (mainFS (some minimalDoc) outVocab outMerges fs).1 = 0) := by
  refine ⟨fun c => ?_, by decide, fun c => ?_, fun _ _ _ => rfl, rfl, rfl, rfl, rfl, rfl, rfl,
    fun _ _ _ => rfl⟩
  · cases c <;> simp [allFailureCategories]
  · cases c <;> decide

/-- Claim C4: on the minimal valid document the export succeeds, the
vocabulary file content is exactly `{"a":0,"b":1}` and the merges file
content is exactly the version header line, the single rule and a final
newline. -/
theorem mainExport_minimal_doc :
    mainExport minimalDoc = .ok ("\x7b\"a\":0,\"b\":1\x7d", "#version: 0.2\na b\n") := by
  rfl

/-- Claim C5: merge normalization preserves input order, drops string
entries that strip to empty and renders pairs with a single space: the
spec's example normalizes to exactly `["a b", "c d", "e f"]`, and in
general a list of well-formed entries normalizes to its in-order
per-entry rendering. -/
theorem normalize_merges_order_preserving :
    normalize_merges [.str "a b", .arr [.str "c", .str "d"], .str "  ", .str "e f"]
      = .ok ["a b", "c d", "e f"]
    ∧ ∀ es idx, (∀ e ∈ es, goodMergeEntry e = true) →
        normalizeMergesFrom idx es = .ok (es.filterMap renderMergeEntry) := by
  exact ⟨rfl, fun es idx h => normalizeMergesFrom_good es h idx⟩

/-- Concrete instance of `normalize_merges_order_preserving` on a list of
three well-formed entries. -/
theorem normalize_merges_order_preserving_witness :
    normalizeMergesFrom 5 [.str " a b ", .arr [.str "c", .str "d"], .str "  "]
      = .ok ["a b", "c d"] :=
  normalize_merges_order_preserving.2 [.str " a b ", .arr [.str "c", .str "d"], .str "  "] 5
    (by decide)

/-- Claim C6: a raw merge entry that is neither a string nor a two-element
array of two strings makes normalization fail with an error identifying
the offending index and value, stopping at that entry with no output; in
particular a list whose first element is `[1, "x"]` fails identifying
index 0, and in general the first malformed entry after a prefix of
well-formed entries is reported at its index. -/
theorem normalize_merges_malformed_entry :
    normalize_merges [.arr [.int 1, .str "x"]] = .error (0, .arr [.int 1, .str "x"])
    ∧ ∀ good e rest idx, (∀ x ∈ good, goodMergeEntry x = true) → goodMergeEntry e = false →
        normalizeMergesFrom idx (good ++ e :: rest) = .error (idx + good.length, e) := by
  exact ⟨rfl, fun good e rest idx hg hb => normalizeMergesFrom_bad_at good e rest hg hb idx⟩

/-- Concrete instance of `normalize_merges_malformed_entry`: the integer
entry at index 1 is reported. -/
theorem normalize_merges_malformed_entry_witness :
    normalizeMergesFrom 0 [.str "a b", .int 3, .str "c d"] = .error (1, .int 3) :=
  normalize_merges_malformed_entry.2 [.str "a b"] (.int 3) [.str "c d"] 0 (by decide) (by decide)

/-- Claim C7, counterexample: the string entry `" a b "` is non-empty after
stripping, yet the output contains the stripped string `"a b"`, not the
entry unchanged, refuting the claim that such entries appear unchanged in
the output sequence. -/
theorem normalize_merges_keeps_asis_counterexample :
    (pyStrip " a b ").isEmpty = false
    ∧ normalize_merges [.str " a b "] = .ok ["a b"]
    ∧ (["a b"] : List String) ≠ [" a b "] := by
  exact ⟨rfl, rfl, by decide⟩

/-- Claim C7, amended: for every raw merge entry that is a string and is
non-empty after stripping surrounding whitespace, merge normalization
keeps the stripped string (so a string with no surrounding whitespace
appears unchanged in the output sequence). -/
theorem normalize_merges_keeps_trimmed (s : String) (rest : List JValue) (idx : Nat)
    (h : (pyStrip s).isEmpty = false) :
    normalizeMergesFrom idx (.str s :: rest)
      = (normalizeMergesFrom (idx + 1) rest).map (fun ls => pyStrip s :: ls) := by
  simp [normalizeMergesFrom, h]

/-- Concrete instance of `normalize_merges_keeps_trimmed` at `" a b "`. -/
theorem normalize_merges_keeps_trimmed_witness :
    normalizeMergesFrom 0 [.str " a b "]
      = (normalizeMergesFrom 1 []).map (fun ls => pyStrip " a b " :: ls) :=
  normalize_merges_keeps_trimmed " a b " [] 0 (by rfl)

/-- Claim C8: for every valid base vocabulary (string keys with distinct
names, integer values), `merge_added_tokens` with no added-token list
(absent or JSON null, both `None` in Python) returns a mapping equal to
the input by value; the embedding is pure, so the returned mapping is
necessarily independent of the original (the source builds it in a fresh
dict). -/
theorem merge_added_tokens_no_added (ids : List (String × Int))
    (hnodup : (ids.map Prod.fst).Nodup) :
    merge_added_tokens (ids.map (fun kv => (kv.1, JValue.int kv.2))) .null = .ok ids := by
  have h := copyVocab_int ids [] (fun p _ => rfl) hnodup
  simp [merge_added_tokens, h]

/-- Concrete instance of `merge_added_tokens_no_added` on the vocabulary
`{"a": 0, "b": 1}`. -/
theorem merge_added_tokens_no_added_witness :
    merge_added_tokens [("a", .int 0), ("b", .int 1)] .null = .ok [("a", 0), ("b", 1)] :=
  merge_added_tokens_no_added [("a", 0), ("b", 1)] (by decide)

/-- Claim C9: running the export twice with identical parsed input and
identical output paths is idempotent: the second run exits with the same
code and leaves the filesystem byte-identical to the state after the
first run (the outputs are a deterministic function of the input
document). -/
theorem mainFS_idempotent (input : Option JValue) (outVocab outMerges : String)
    (fs : FileSystem) :
    mainFS input outVocab outMerges (mainFS input outVocab outMerges fs).2
      = mainFS input outVocab outMerges fs := by
  match input with
  | none => rfl
  | some root =>
    match hm : mainExport root with
    | .error code => simp [mainFS, hm]
    | .ok contents =>
      simp only [mainFS, hm]
      refine congrArg (Prod.mk 0) ?_
      funext p
      by_cases h1 : p = outMerges <;> by_cases h2 : p = outVocab <;> simp [fsWrite, h1, h2]

/-- Claim C10: `merge_added_tokens` applied to a present but empty
added-token list behaves exactly as the absent/null case: for every
vocabulary it returns the same result as with `None`, and on a valid
vocabulary it succeeds with a mapping equal to the base vocabulary. -/
theorem merge_added_tokens_empty_list :
    (∀ vocab, merge_added_tokens vocab (.arr []) = merge_added_tokens vocab .null)
    ∧ ∀ ids : List (String × Int), (ids.map Prod.fst).Nodup →
        merge_added_tokens (ids.map (fun kv => (kv.1, JValue.int kv.2))) (.arr [])
          = .ok ids := by
  constructor
  · intro vocab
    match hcv : copyVocab [] vocab with
    | .error e => simp [merge_added_tokens, hcv]
    | .ok merged => simp [merge_added_tokens, hcv, addedTokensLoop]
  · intro ids hnodup
    have h := copyVocab_int ids [] (fun p _ => rfl) hnodup
    simp [merge_added_tokens, h, addedTokensLoop]

/-- Concrete instance of `merge_added_tokens_empty_list` on the vocabulary
`{"a": 0, "b": 1}`. -/
theorem merge_added_tokens_empty_list_witness :
    merge_added_tokens [("a", .int 0), ("b", .int 1)] (.arr []) = .ok [("a", 0), ("b", 1)] :=
  merge_added_tokens_empty_list.2 [("a", 0), ("b", 1)] (by decide)
